import Mathlib

/-!
Shallow embedding of the simulation core of `src/main.c` (a small raylib
top-down action game): entity movement, gravity/jump physics, grid-map
collision, projectile ballistics and combat resolution.

Modelling conventions:
* C `float` arithmetic is modelled exactly over `ℚ`; all the constants of the
  program (0.5, 0.1, 0.25, 0.3, 0.15, 0.01, 0.2, 10, 50, ...) are exactly
  representable, so the rational model and the float code agree on the
  branch structure away from rounding noise.
* `Vector3Length v > c` (for `c ≥ 0`) is modelled by the equivalent
  square comparison `normSq v > c^2`, avoiding square roots.
* `Vector3Normalize` (which divides by a square root) is modelled by its
  exact-arithmetic graph `Normalizes v u`: `u` is a positive rescaling of
  `v` of squared length 1 (and `0` maps to `0`, as in raymath).  Step
  functions take the normalization results as explicit arguments and
  theorems constrain them with `Normalizes` hypotheses.
* Presentation-only data (textures, colors, camera) is omitted from the
  structures; `GetRandomValue(-50, 50)` is an explicit integer argument.
* `(int)` casts in C truncate toward zero: `cIntCast`.
-/

/- Batteries marks the arithmetic of `Rat` irreducible; restore definitional
evaluation so that concrete runs of the embedded program are checkable by
`decide`. -/
attribute [local semireducible] Rat.add Rat.sub Rat.mul Rat.inv

/-- 3D vector over exact rationals (models raylib `Vector3`). -/
structure Vec3 where
  x : ℚ
  y : ℚ
  z : ℚ
deriving DecidableEq

/-- Componentwise sum (models `Vector3Add`). -/
def vadd (a b : Vec3) : Vec3 := ⟨a.x + b.x, a.y + b.y, a.z + b.z⟩

/-- Componentwise difference (models `Vector3Subtract`). -/
def vsub (a b : Vec3) : Vec3 := ⟨a.x - b.x, a.y - b.y, a.z - b.z⟩

/-- Scalar multiple (models `Vector3Scale`). -/
def vscale (c : ℚ) (v : Vec3) : Vec3 := ⟨c * v.x, c * v.y, c * v.z⟩

/-- Squared Euclidean length; `Vector3Length v = Real.sqrt (normSq v)`. -/
def normSq (v : Vec3) : ℚ := v.x ^ 2 + v.y ^ 2 + v.z ^ 2

/-- The zero vector. -/
def vzero : Vec3 := ⟨0, 0, 0⟩

/-- Axis-aligned bounding box (models raylib `BoundingBox`). -/
structure Box where
  min : Vec3
  max : Vec3
deriving DecidableEq

/-- Exact-arithmetic graph of raymath `Vector3Normalize`: the zero vector is
mapped to itself, and a nonzero `v` is mapped to the positive rescaling of
`v` with squared length 1 (that is, `v` divided by its length). -/
def Normalizes (v u : Vec3) : Prop :=
  (v = vzero ∧ u = vzero) ∨
    (v ≠ vzero ∧ ∃ c : ℚ, 0 < c ∧ u = vscale c v ∧ normSq u = 1)

/-- Inclusive AABB overlap on all three axes (raylib `CheckCollisionBoxes`). -/
def CheckCollisionBoxes (a b : Box) : Bool :=
  decide (b.min.x ≤ a.max.x ∧ a.min.x ≤ b.max.x ∧
          b.min.y ≤ a.max.y ∧ a.min.y ≤ b.max.y ∧
          b.min.z ≤ a.max.z ∧ a.min.z ≤ b.max.z)

/-- Sphere-vs-box test from `src/main.c` (`CheckCollisionSphereBox`): clamp
the center to the box per-axis and compare the squared distance to the
closest point against the squared radius, strictly. -/
def CheckCollisionSphereBox (center : Vec3) (radius : ℚ) (box : Box) : Bool :=
  let closest : Vec3 :=
    ⟨max box.min.x (min center.x box.max.x),
     max box.min.y (min center.y box.max.y),
     max box.min.z (min center.z box.max.z)⟩
  let distanceSquared :=
    (closest.x - center.x) ^ 2 + (closest.y - center.y) ^ 2 +
      (closest.z - center.z) ^ 2
  decide (distanceSquared < radius * radius)

/-- Per-axis clamp of a point to a box (spec formulation for C5). -/
def clampToBox (c : Vec3) (box : Box) : Vec3 :=
  ⟨max box.min.x (min c.x box.max.x),
   max box.min.y (min c.y box.max.y),
   max box.min.z (min c.z box.max.z)⟩

/-- Squared distance between two points (spec formulation for C5). -/
def distSq (a b : Vec3) : ℚ := (a.x - b.x) ^ 2 + (a.y - b.y) ^ 2 + (a.z - b.z) ^ 2

/-- C truncation-toward-zero semantics of `(int)q` applied to a rational. -/
def cIntCast (q : ℚ) : ℤ := if q < 0 then ⌈q⌉ else ⌊q⌋

/-- The tile map together with the data the collision functions consult:
pixel grid of the `cubicmap` image, the model bounding box returned by
`GetModelBoundingBox`, and the world-space `mapPosition` offset. -/
structure GameMap where
  width : ℤ
  height : ℤ
  pixel : ℤ → ℤ → ℕ × ℕ × ℕ
  modelBounds : Box
  origin : Vec3

/-- The overall map bounding volume: the model bounds translated by the map
position, recomputed by each collision routine in `src/main.c`. -/
def mapBounds (m : GameMap) : Box :=
  { min := vadd m.modelBounds.min m.origin, max := vadd m.modelBounds.max m.origin }

/-- Wall test for one grid cell: in-range and all of R, G, B above the 50
brightness threshold (`src/main.c` uses `r > 50 && g > 50 && b > 50` after
skipping out-of-range cells). -/
def cellIsWall (m : GameMap) (cx cz : ℤ) : Bool :=
  if cx < 0 ∨ cz < 0 ∨ m.width ≤ cx ∨ m.height ≤ cz then false
  else
    decide (50 < (m.pixel cx cz).1 ∧ 50 < (m.pixel cx cz).2.1 ∧
            50 < (m.pixel cx cz).2.2)

/-- Bounds of the wall cube at cell `(cx, cz)`: a unit cube whose map-local
footprint spans `[cx - 0.5, cx + 0.5] × [cz - 0.5, cz + 0.5]`, height 1. -/
def cellBounds (m : GameMap) (cx cz : ℤ) : Box :=
  { min := ⟨m.origin.x + ((cx : ℚ) - 1/2), m.origin.y, m.origin.z + ((cz : ℚ) - 1/2)⟩,
    max := ⟨m.origin.x + ((cx : ℚ) - 1/2) + 1, m.origin.y + 1,
            m.origin.z + ((cz : ℚ) - 1/2) + 1⟩ }

/-- The 3×3 scan window around the current cell, as `(dz, dx)` offsets in the
row-major order of the C loops (`for z in -1..1 { for x in -1..1 }`). -/
def offsets : List (ℤ × ℤ) :=
  [(-1, -1), (-1, 0), (-1, 1), (0, -1), (0, 0), (0, 1), (1, -1), (1, 0), (1, 1)]

/-- Player state from `src/main.c` (texture omitted; `direction` is the
sprite-facing code 0..3). -/
structure Player where
  position : Vec3
  size : Vec3
  speed : ℚ
  direction : ℤ
  velocity : Vec3
  isGrounded : Bool
  jumpForce : ℚ
  gravity : ℚ
  health : ℤ
  isHit : Bool
  hitTimer : ℚ
deriving DecidableEq

/-- Enemy state from `src/main.c` (texture omitted). -/
structure Enemy where
  position : Vec3
  size : Vec3
  speed : ℚ
  shootTimer : ℚ
  shootCooldown : ℚ
  active : Bool
  health : ℤ
  isHit : Bool
  hitTimer : ℚ
deriving DecidableEq

/-- Bullet state from `src/main.c` (the color, fully determined by
`fromPlayer`, is omitted). -/
structure Bullet where
  position : Vec3
  direction : Vec3
  speed : ℚ
  radius : ℚ
  active : Bool
  fromPlayer : Bool
deriving DecidableEq

/-- Pool capacity `MAX_BULLETS`. -/
def MAX_BULLETS : ℕ := 500

/-- Fixed per-tick bullet displacement `BULLET_SPEED` (0.3). -/
def BULLET_SPEED : ℚ := 3/10

/-- Bullet collision radius `BULLET_RADIUS` (0.15). -/
def BULLET_RADIUS : ℚ := 3/20

/-- Base enemy shoot cooldown `ENEMY_SHOOT_COOLDOWN` (2 seconds). -/
def ENEMY_SHOOT_COOLDOWN : ℚ := 2

/-- Player bounds: x/z centered on the position, y anchored at the base
(`GetPlayerBoundingBox`). -/
def GetPlayerBoundingBox (p : Player) : Box :=
  { min := ⟨p.position.x - p.size.x / 2, p.position.y, p.position.z - p.size.z / 2⟩,
    max := ⟨p.position.x + p.size.x / 2, p.position.y + p.size.y,
            p.position.z + p.size.z / 2⟩ }

/-- Enemy bounds, same shape as the player's (`GetEnemyBoundingBox`). -/
def GetEnemyBoundingBox (e : Enemy) : Box :=
  { min := ⟨e.position.x - e.size.x / 2, e.position.y, e.position.z - e.size.z / 2⟩,
    max := ⟨e.position.x + e.size.x / 2, e.position.y + e.size.y,
            e.position.z + e.size.z / 2⟩ }

/-- One cell of the 3×3 scan in `CheckCollisionPlayerWithMap`: the
accumulator carries the `collision` and `groundContact` flags; a solid
overlapping cell whose top is within 0.1 of the player base sets
`groundContact`, any other solid overlapping cell sets `collision`. -/
def playerScanStep (pb : Box) (py : ℚ) (m : GameMap) (cellX cellZ : ℤ)
    (acc : Bool × Bool) (o : ℤ × ℤ) : Bool × Bool :=
  let cx := cellX + o.2
  let cz := cellZ + o.1
  if cellIsWall m cx cz then
    if CheckCollisionBoxes pb (cellBounds m cx cz) then
      if |py - (m.origin.y + 1)| < 1/10 then (acc.1, true)
      else (true, acc.2)
    else acc
  else acc

/-- Ground-contact test for one cell of the scan, as a standalone predicate
(the second component produced by `playerScanStep`). -/
def groundCellB (pb : Box) (py : ℚ) (m : GameMap) (cellX cellZ : ℤ) (o : ℤ × ℤ) : Bool :=
  cellIsWall m (cellX + o.2) (cellZ + o.1) &&
    CheckCollisionBoxes pb (cellBounds m (cellX + o.2) (cellZ + o.1)) &&
    decide (|py - (m.origin.y + 1)| < 1/10)

/-- Blocking-collision test for one cell of the scan, as a standalone
predicate (the first component produced by `playerScanStep`). -/
def collCellB (pb : Box) (py : ℚ) (m : GameMap) (cellX cellZ : ℤ) (o : ℤ × ℤ) : Bool :=
  cellIsWall m (cellX + o.2) (cellZ + o.1) &&
    CheckCollisionBoxes pb (cellBounds m (cellX + o.2) (cellZ + o.1)) &&
    !decide (|py - (m.origin.y + 1)| < 1/10)

/-- The player-vs-map query `CheckCollisionPlayerWithMap` from `src/main.c`.
It returns the collision verdict and the (possibly) updated player: the
function writes `isGrounded := true` when the scan found ground contact or
the player base is at or below 0.5, and returns `true` immediately (player
untouched) when the player box misses the overall map bounds. -/
def CheckCollisionPlayerWithMap (p : Player) (m : GameMap) : Bool × Player :=
  let pb := GetPlayerBoundingBox p
  if CheckCollisionBoxes pb (mapBounds m) = false then (true, p)
  else
    let cellX := cIntCast (p.position.x - m.origin.x)
    let cellZ := cIntCast (p.position.z - m.origin.z)
    let scan := offsets.foldl (playerScanStep pb p.position.y m cellX cellZ) (false, false)
    let p1 := if scan.2 || decide (p.position.y ≤ 1/2) then { p with isGrounded := true }
      else p
    (scan.1, p1)

/-- The enemy-vs-map query `CheckCollisionEnemyWithMap`: pure collision
verdict (out of overall map bounds counts as collision; the inner loops
break at the first hit, which agrees with an existence scan). -/
def CheckCollisionEnemyWithMap (e : Enemy) (m : GameMap) : Bool :=
  let eb := GetEnemyBoundingBox e
  if CheckCollisionBoxes eb (mapBounds m) = false then true
  else
    let cellX := cIntCast (e.position.x - m.origin.x)
    let cellZ := cIntCast (e.position.z - m.origin.z)
    offsets.any fun o =>
      cellIsWall m (cellX + o.2) (cellZ + o.1) &&
        CheckCollisionBoxes eb (cellBounds m (cellX + o.2) (cellZ + o.1))

/-- The bullet-vs-map query `CheckCollisionBulletWithMap`: sphere-vs-box
against the 3×3 neighborhood, out of overall map bounds counts as
collision. -/
def CheckCollisionBulletWithMap (b : Bullet) (m : GameMap) : Bool :=
  if CheckCollisionSphereBox b.position b.radius (mapBounds m) = false then true
  else
    let cellX := cIntCast (b.position.x - m.origin.x)
    let cellZ := cIntCast (b.position.z - m.origin.z)
    offsets.any fun o =>
      cellIsWall m (cellX + o.2) (cellZ + o.1) &&
        CheckCollisionSphereBox b.position b.radius (cellBounds m (cellX + o.2) (cellZ + o.1))

/-- Hit-timer decay for the player, from the top of the main loop: while
`isHit`, subtract the frame time from `hitTimer` and clear `isHit` once the
timer is at or below zero (the timer itself keeps the crossed value). -/
def playerHitTimerDecay (p : Player) (dt : ℚ) : Player :=
  if p.isHit then
    let t := p.hitTimer - dt
    if t ≤ 0 then { p with hitTimer := t, isHit := false }
    else { p with hitTimer := t }
  else p

/-- Hit-timer decay for an enemy, from `UpdateEnemies` (same policy as the
player's). -/
def enemyHitTimerDecay (e : Enemy) (dt : ℚ) : Enemy :=
  if e.isHit then
    let t := e.hitTimer - dt
    if t ≤ 0 then { e with hitTimer := t, isHit := false }
    else { e with hitTimer := t }
  else e

/-- Keyboard-driven horizontal displacement of the player from the main
loop: right/left move x and set facing, down/up move z and set facing, with
`else if` exclusivity per axis. -/
def applyMoveKeys (p : Player) (right left down up : Bool) : Player :=
  let p1 :=
    if right then
      { p with position := { p.position with x := p.position.x + p.speed }, direction := 1 }
    else if left then
      { p with position := { p.position with x := p.position.x - p.speed }, direction := 3 }
    else p
  if down then
    { p1 with position := { p1.position with z := p1.position.z + p1.speed }, direction := 0 }
  else if up then
    { p1 with position := { p1.position with z := p1.position.z - p1.speed }, direction := 2 }
  else p1

/-- The player horizontal-movement resolution of the main loop: remember
the whole previous position, apply both axis moves, run the map query once,
and on collision restore the whole position (the `isGrounded` side effect
of the query is kept either way). -/
def playerHorizontalMove (p : Player) (right left down up : Bool) (m : GameMap) : Player :=
  let q := applyMoveKeys p right left down up
  let r := CheckCollisionPlayerWithMap q m
  if r.1 then { r.2 with position := p.position } else r.2

/-- The jump handler of the main loop: when SPACE is pressed while grounded,
set the vertical velocity to the jump impulse and clear `isGrounded`. -/
def playerJumpStep (p : Player) (spacePressed : Bool) : Player :=
  if spacePressed && p.isGrounded then
    { p with velocity := { p.velocity with y := p.jumpForce }, isGrounded := false }
  else p

/-- Landing qualification for one cell in `UpdatePlayerPhysics`: the player
bottom lies between the cell top and 0.1 below it, and the boxes overlap. -/
def snapQualifies (pb : Box) (m : GameMap) (cx cz : ℤ) : Bool :=
  cellIsWall m cx cz &&
    (decide (pb.min.y ≤ (cellBounds m cx cz).max.y) &&
     decide ((cellBounds m cx cz).max.y - 1/10 ≤ pb.min.y) &&
     CheckCollisionBoxes pb (cellBounds m cx cz))

/-- Whether some cell of one row (`dz` fixed, `dx` in -1..1 in order) of the
3×3 window qualifies for a landing snap. -/
def rowHasSnap (pb : Box) (m : GameMap) (cellX cellZ dz : ℤ) : Bool :=
  [(-1 : ℤ), 0, 1].any fun dx => snapQualifies pb m (cellX + dx) (cellZ + dz)

/-- The landing snap itself: grounded, base moved to the cell top
(`mapPosition.y + 1` for every wall cell), vertical velocity zeroed. -/
def snapPlayer (p : Player) (m : GameMap) : Player :=
  { p with isGrounded := true,
           position := { p.position with y := m.origin.y + 1 },
           velocity := { p.velocity with y := 0 } }

/-- The landing scan at the bottom of `UpdatePlayerPhysics`.  The C loop
breaks out of a row at the first qualifying cell and out of the whole scan
as soon as `isGrounded` holds after a row; hence row -1 is always scanned,
and rows 0 and 1 only when the player is still airborne (the map query
just before the scan may already have re-grounded the player). -/
def groundScan (p : Player) (m : GameMap) : Player :=
  let pb := GetPlayerBoundingBox p
  let cellX := cIntCast (p.position.x - m.origin.x)
  let cellZ := cIntCast (p.position.z - m.origin.z)
  if rowHasSnap pb m cellX cellZ (-1) then snapPlayer p m
  else if p.isGrounded then p
  else if rowHasSnap pb m cellX cellZ 0 then snapPlayer p m
  else if rowHasSnap pb m cellX cellZ 1 then snapPlayer p m
  else p

/-- `UpdatePlayerPhysics` from `src/main.c`: gravity while airborne (or
zeroing a residual downward velocity while grounded), vertical integration,
the hard floor clamp at 0.5, and otherwise a re-derivation of `isGrounded`
(cleared, then possibly restored by the map query side effect and by the
landing scan, both only while falling).  `dt` is accepted but unused, as in
the source. -/
def UpdatePlayerPhysics (p : Player) (dt : ℚ) (m : GameMap) : Player :=
  let p1 :=
    if p.isGrounded = false then
      { p with velocity := { p.velocity with y := p.velocity.y - p.gravity } }
    else if p.velocity.y < 0 then
      { p with velocity := { p.velocity with y := 0 } }
    else p
  let p2 := { p1 with position := { p1.position with y := p1.position.y + p1.velocity.y } }
  if p2.position.y < 1/2 then
    { p2 with position := { p2.position with y := 1/2 },
              velocity := { p2.velocity with y := 0 },
              isGrounded := true }
  else
    let p3 := { p2 with isGrounded := false }
    if p3.velocity.y < 0 then groundScan (CheckCollisionPlayerWithMap p3 m).2 m
    else p3

/-- The bullet record that `ShootBullet` writes into the chosen slot. -/
def mkBullet (position direction : Vec3) (fromPlayer : Bool) : Bullet :=
  { position := position, direction := direction, speed := BULLET_SPEED,
    radius := BULLET_RADIUS, active := true, fromPlayer := fromPlayer }

/-- `ShootBullet` from `src/main.c`: a no-op once the (monotone) bullet
counter has reached `MAX_BULLETS`; otherwise the first inactive slot is
taken (and the counter incremented), and when every slot is active the slot
at `bulletCount % MAX_BULLETS` is overwritten without touching the
counter. -/
def ShootBullet (bullets : List Bullet) (count : ℕ) (position direction : Vec3)
    (fromPlayer : Bool) : List Bullet × ℕ :=
  if MAX_BULLETS ≤ count then (bullets, count)
  else
    match bullets.findIdx? (fun b => !b.active) with
    | some i => (bullets.set i (mkBullet position direction fromPlayer), count + 1)
    | none => (bullets.set (count % MAX_BULLETS) (mkBullet position direction fromPlayer), count)

/-- Advance of a single bullet inside `UpdateBullets`: move an active bullet
by `direction * speed` and deactivate it when the new position is more than
50 units from the world origin (`Vector3Length(position) > 50`, modelled by
the equivalent squared comparison); inactive bullets are untouched. -/
def bulletAdvance (b : Bullet) : Bullet :=
  if b.active then
    let pos : Vec3 := ⟨b.position.x + b.direction.x * b.speed,
                       b.position.y + b.direction.y * b.speed,
                       b.position.z + b.direction.z * b.speed⟩
    if 50 ^ 2 < normSq pos then { b with position := pos, active := false }
    else { b with position := pos }
  else b

/-- `UpdateBullets` from `src/main.c`: advance the first `bulletCount`
slots; `dt` is accepted but unused (the displacement is a fixed per-tick
step). -/
def UpdateBullets (bullets : List Bullet) (count : ℕ) (dt : ℚ) : List Bullet :=
  match count, bullets with
  | 0, bs => bs
  | _ + 1, [] => []
  | n + 1, b :: bs => bulletAdvance b :: UpdateBullets bs n dt

/-- Axis-by-axis enemy displacement from `UpdateEnemies`: apply the x delta,
revert x alone on collision, then apply the z delta and revert z alone on
collision. -/
def enemyMove (e : Enemy) (dir : Vec3) (m : GameMap) : Enemy :=
  let prev := e.position
  let e1 := { e with position := { e.position with x := e.position.x + dir.x } }
  let e2 :=
    if CheckCollisionEnemyWithMap e1 m then
      { e1 with position := { e1.position with x := prev.x } }
    else e1
  let e3 := { e2 with position := { e2.position with z := e2.position.z + dir.z } }
  if CheckCollisionEnemyWithMap e3 m then
    { e3 with position := { e3.position with z := prev.z } }
  else e3

/-- The aim vector an enemy computes toward the player (both lifted by 0.5
to sprite centers); its normalization is the fired bullet's direction. -/
def enemyAimRaw (e : Enemy) (pl : Player) : Vec3 :=
  vsub ⟨pl.position.x, pl.position.y + 1/2, pl.position.z⟩
       ⟨e.position.x, e.position.y + 1/2, e.position.z⟩

/-- Movement phase of the per-enemy body of `UpdateEnemies`: compute the
vector to the player; when the distance is positive, the step is
`Vector3Scale(Vector3Normalize(direction), speed)` — `nrmDir` stands for
the normalize value and theorems constrain it; move (axis by axis) only
when the distance exceeds the 3-unit standoff.  Length comparisons of the
source are modelled by equivalent squared comparisons, and `jr` in
`enemyStep` below stands for `GetRandomValue(-50, 50)`. -/
def enemyMovePhase (e1 : Enemy) (pl : Player) (m : GameMap) (nrmDir : Vec3) : Enemy :=
  let rawDir := vsub pl.position e1.position
  let dSq := normSq rawDir
  let dir := if 0 < dSq then vscale e1.speed nrmDir else rawDir
  if 3 ^ 2 < dSq then enemyMove e1 dir m else e1

/-- Remainder of the per-enemy body of `UpdateEnemies` for one tick: decay,
the movement phase above, then the cooldown/shoot logic (the shoot-range
test uses the pre-move distance, the aim the post-move position). -/
def enemyStep (e : Enemy) (pl : Player) (dt : ℚ) (m : GameMap)
    (nrmDir nrmAim : Vec3) (jr : ℤ)
    (bullets : List Bullet) (count : ℕ) : Enemy × List Bullet × ℕ :=
  if e.active = false then (e, bullets, count)
  else
    let e1 := enemyHitTimerDecay e dt
    let dSq := normSq (vsub pl.position e1.position)
    let e2 := enemyMovePhase e1 pl m nrmDir
    let t := e2.shootTimer - dt
    if t ≤ 0 ∧ dSq < 10 ^ 2 then
      let pool := ShootBullet bullets count
        ⟨e2.position.x, e2.position.y + 1/2, e2.position.z⟩ nrmAim false
      ({ e2 with shootTimer := e2.shootCooldown + (jr : ℚ) / 100 }, pool.1, pool.2)
    else
      ({ e2 with shootTimer := t }, bullets, count)

/-- The player mouse-fire step of the main loop: the bullet leaves from the
player sprite center with the twice-normalized, y-zeroed mouse direction
(`dir` stands for the final direction value; theorems constrain it via
`Normalizes`). -/
def playerFireStep (pl : Player) (dir : Vec3) (bullets : List Bullet) (count : ℕ) :
    List Bullet × ℕ :=
  ShootBullet bullets count ⟨pl.position.x, pl.position.y + 1/2, pl.position.z⟩ dir true

/-- The vector the player fire handler normalizes first: projected mouse
target minus player sprite center. -/
def playerAimRaw (pl : Player) (targetPoint : Vec3) : Vec3 :=
  vsub targetPoint ⟨pl.position.x, pl.position.y + 1/2, pl.position.z⟩

/-- Zero the vertical component (the `direction.y = 0.0f` assignment in the
player fire handler). -/
def setYZero (v : Vec3) : Vec3 := ⟨v.x, 0, v.z⟩

/-- Damage application to an enemy hit by a player bullet (the interior of
the `!enemies[j].isHit` branch of `CheckBulletCollisions`): health minus
10, hit window of 0.2 opened, deactivated when health drops to 0 or
below. -/
def damageEnemyHit (e : Enemy) : Enemy :=
  let e1 := { e with health := e.health - 10, isHit := true, hitTimer := 1/5 }
  if e1.health ≤ 0 then { e1 with active := false } else e1

/-- The enemy scan of `CheckBulletCollisions` for one player bullet: walk
the enemy list in index order, and at the first active enemy whose box the
bullet sphere hits, apply damage (only outside the hit window), consume the
bullet (second component `true`) and stop scanning. -/
def bulletHitEnemies (b : Bullet) : List Enemy → List Enemy × Bool
  | [] => ([], false)
  | e :: rest =>
    if e.active && CheckCollisionSphereBox b.position b.radius (GetEnemyBoundingBox e) then
      ((if e.isHit = false then damageEnemyHit e else e) :: rest, true)
    else
      let r := bulletHitEnemies b rest
      (e :: r.1, r.2)

/-- Per-bullet body of `CheckBulletCollisions`: an active bullet first
tests the map (deactivate and stop), then — for an enemy bullet — the
player (damage only outside the player's hit window, deactivate and stop),
then — for a player bullet — the enemies in index order via
`bulletHitEnemies`. -/
def processBullet (b : Bullet) (pl : Player) (es : List Enemy) (m : GameMap) :
    Bullet × Player × List Enemy :=
  if b.active = false then (b, pl, es)
  else if CheckCollisionBulletWithMap b m then ({ b with active := false }, pl, es)
  else if b.fromPlayer = false then
    if CheckCollisionSphereBox b.position b.radius (GetPlayerBoundingBox pl) then
      let pl1 :=
        if pl.isHit = false then
          { pl with health := pl.health - 10, isHit := true, hitTimer := 1/2 }
        else pl
      ({ b with active := false }, pl1, es)
    else (b, pl, es)
  else
    let r := bulletHitEnemies b es
    (if r.2 then { b with active := false } else b, pl, r.1)

/-- `CheckBulletCollisions` over the first `bulletCount` slots, threading
the player and enemy states through the per-bullet bodies in order. -/
def CheckBulletCollisions (bullets : List Bullet) (count : ℕ) (pl : Player)
    (es : List Enemy) (m : GameMap) : List Bullet × Player × List Enemy :=
  match count, bullets with
  | 0, bs => (bs, pl, es)
  | _ + 1, [] => ([], pl, es)
  | n + 1, b :: bs =>
    let r := processBullet b pl es m
    let rest := CheckBulletCollisions bs n r.2.1 r.2.2 m
    (r.1 :: rest.1, rest.2)

/-- C5: `CheckCollisionSphereBox` returns true iff the squared distance from
the center to the per-axis clamp of the center onto the box is strictly less
than the squared radius; in particular, tangency (squared distance equal to
the squared radius) is reported as non-colliding. -/
theorem C5_sphere_box_clamp (center : Vec3) (radius : ℚ) (box : Box) :
    (CheckCollisionSphereBox center radius box = true ↔
      distSq center (clampToBox center box) < radius ^ 2) ∧
    (distSq center (clampToBox center box) = radius ^ 2 →
      CheckCollisionSphereBox center radius box = false) := by
  constructor
  · simp only [CheckCollisionSphereBox, distSq, clampToBox, decide_eq_true_eq]
    constructor
    · intro h; nlinarith [h]
    · intro h; nlinarith [h]
  · intro h
    simp only [CheckCollisionSphereBox, decide_eq_false_iff_not, not_lt]
    simp only [distSq, clampToBox] at h
    nlinarith [h]

/-- Witness for C5 at a concrete tangent configuration: a unit sphere
centered at `(2, 0, 0)` against the unit-radius box `[-1, 1]^3` touches at
distance exactly the radius and is reported as non-colliding. -/
theorem C5_sphere_box_clamp_witness :
    distSq ⟨2, 0, 0⟩ (clampToBox ⟨2, 0, 0⟩ ⟨⟨-1, -1, -1⟩, ⟨1, 1, 1⟩⟩) = 1 ^ 2 ∧
    CheckCollisionSphereBox ⟨2, 0, 0⟩ 1 ⟨⟨-1, -1, -1⟩, ⟨1, 1, 1⟩⟩ = false :=
  ⟨by decide, (C5_sphere_box_clamp ⟨2, 0, 0⟩ 1 ⟨⟨-1, -1, -1⟩, ⟨1, 1, 1⟩⟩).2 (by decide)⟩

/-- C7 (amended none — as claimed): `UpdateBullets` ignores the frame time
(fixed per-tick displacement); an inactive bullet is left entirely
unchanged; an active bullet is moved by `direction * speed` and is left
active exactly when the moved position is within 50 units of the world
origin (strictly more than 50 deactivates); only the first `bulletCount`
slots are processed. -/
theorem C7_update_bullets :
    (∀ (bullets : List Bullet) (count : ℕ) (dt dt' : ℚ),
        UpdateBullets bullets count dt = UpdateBullets bullets count dt') ∧
    (∀ b : Bullet, b.active = false → bulletAdvance b = b) ∧
    (∀ b : Bullet, b.active = true →
        (bulletAdvance b).position = vadd b.position (vscale b.speed b.direction) ∧
        ((bulletAdvance b).active = false ↔
          50 ^ 2 < normSq (vadd b.position (vscale b.speed b.direction)))) ∧
    (∀ (bullets : List Bullet) (count : ℕ) (dt : ℚ) (i : ℕ),
        (UpdateBullets bullets count dt)[i]? =
          if i < count then (bullets[i]?).map bulletAdvance else bullets[i]?) := by
  have hmove : ∀ b : Bullet, b.active = true →
      (⟨b.position.x + b.direction.x * b.speed,
        b.position.y + b.direction.y * b.speed,
        b.position.z + b.direction.z * b.speed⟩ : Vec3) =
        vadd b.position (vscale b.speed b.direction) := by
    intro b _
    simp only [vadd, vscale, Vec3.mk.injEq]
    refine ⟨by ring, by ring, by ring⟩
  refine ⟨?_, ?_, ?_, ?_⟩
  · intro bullets count dt dt'
    induction bullets generalizing count with
    | nil => cases count <;> rfl
    | cons b bs ih =>
      cases count with
      | zero => rfl
      | succ n => simp only [UpdateBullets, ih bs.length]; rw [ih n]
  · intro b hb; simp [bulletAdvance, hb]
  · intro b hb
    constructor
    · simp only [bulletAdvance, hb, if_true]
      split
      · simpa using hmove b hb
      · simpa using hmove b hb
    · rw [← hmove b hb]
      simp only [bulletAdvance, hb, if_true]
      split
      next h => simpa using h
      next h => simpa [hb] using h
  · intro bullets count dt i
    induction bullets generalizing count i with
    | nil => cases count <;> simp [UpdateBullets]
    | cons b bs ih =>
      cases count with
      | zero => simp [UpdateBullets]
      | succ n =>
        cases i with
        | zero => simp [UpdateBullets]
        | succ j => simpa [UpdateBullets] using ih n j

/-- Witness for C7 at concrete bullets: an inactive bullet is unchanged,
and an active bullet at `(0, 0, 49.7)` moving along `+z` at speed 0.3
reaches `(0, 0, 50)` — exactly 50 from the origin — and stays active
(deactivation needs strictly more than 50). -/
theorem C7_update_bullets_witness :
    (Bullet.mk ⟨1, 2, 3⟩ ⟨0, 0, 1⟩ (3/10) (3/20) false true).active = false ∧
    bulletAdvance (Bullet.mk ⟨1, 2, 3⟩ ⟨0, 0, 1⟩ (3/10) (3/20) false true) =
      Bullet.mk ⟨1, 2, 3⟩ ⟨0, 0, 1⟩ (3/10) (3/20) false true ∧
    ((bulletAdvance (Bullet.mk ⟨0, 0, 497/10⟩ ⟨0, 0, 1⟩ (3/10) (3/20) true true)).active = false ↔
      50 ^ 2 < normSq (vadd ⟨0, 0, 497/10⟩ (vscale (3/10) ⟨0, 0, 1⟩))) := by
  refine ⟨rfl, C7_update_bullets.2.1 _ rfl, ?_⟩
  exact (C7_update_bullets.2.2.1 (Bullet.mk ⟨0, 0, 497/10⟩ ⟨0, 0, 1⟩ (3/10) (3/20) true true) rfl).2

/-- C8 (amended): while `isHit` holds, the per-tick decay subtracts `dt`
from `hitTimer` and clears `isHit` exactly when the new timer value crosses
to at or below zero, so that immediately after decay `isHit = true` implies
`hitTimer > 0`; at the clearing tick the timer keeps the crossed
(possibly strictly negative) value rather than stopping at exactly 0.
Actors that are not in the hit window are untouched.  Both the player decay
of the main loop and the enemy decay of `UpdateEnemies` behave this way. -/
theorem C8_hit_timer_decay :
    (∀ (p : Player) (dt : ℚ), p.isHit = true →
        (playerHitTimerDecay p dt).hitTimer = p.hitTimer - dt ∧
        ((playerHitTimerDecay p dt).isHit = true ↔ 0 < p.hitTimer - dt)) ∧
    (∀ (p : Player) (dt : ℚ), p.isHit = false → playerHitTimerDecay p dt = p) ∧
    (∀ (e : Enemy) (dt : ℚ), e.isHit = true →
        (enemyHitTimerDecay e dt).hitTimer = e.hitTimer - dt ∧
        ((enemyHitTimerDecay e dt).isHit = true ↔ 0 < e.hitTimer - dt)) ∧
    (∀ (e : Enemy) (dt : ℚ), e.isHit = false → enemyHitTimerDecay e dt = e) := by
  refine ⟨?_, ?_, ?_, ?_⟩
  · intro p dt hp
    simp only [playerHitTimerDecay, hp, if_true]
    split
    next h =>
      refine ⟨rfl, ?_⟩
      simpa using not_lt.mpr h
    next h =>
      refine ⟨rfl, ?_⟩
      simp [hp, not_le.mp h]
  · intro p dt hp; simp [playerHitTimerDecay, hp]
  · intro e dt he
    simp only [enemyHitTimerDecay, he, if_true]
    split
    next h =>
      refine ⟨rfl, ?_⟩
      simpa using not_lt.mpr h
    next h =>
      refine ⟨rfl, ?_⟩
      simp [he, not_le.mp h]
  · intro e dt he; simp [enemyHitTimerDecay, he]

/-- Counterexample for C8 as stated: a player in the hit window with
`hitTimer = 0.5` decayed by a frame of `dt = 0.75` has `isHit` cleared with
`hitTimer = -0.25 < 0` — the timer does not decrease to exactly 0 before
`isHit` clears. -/
theorem C8_counterexample :
    (playerHitTimerDecay
        (Player.mk ⟨0, 1/2, 0⟩ ⟨1/2, 1/2, 1/2⟩ (1/4) 0 ⟨0, 0, 0⟩ true (1/5) (1/100)
          100 true (1/2)) (3/4)).isHit = false ∧
    (playerHitTimerDecay
        (Player.mk ⟨0, 1/2, 0⟩ ⟨1/2, 1/2, 1/2⟩ (1/4) 0 ⟨0, 0, 0⟩ true (1/5) (1/100)
          100 true (1/2)) (3/4)).hitTimer < 0 := by
  decide

/-- Witness for C8 at a concrete decaying actor: a player with
`hitTimer = 0.5` and `dt = 0.2` stays in the hit window with the timer at
exactly `0.3 > 0` after decay. -/
theorem C8_hit_timer_decay_witness :
    (playerHitTimerDecay
        (Player.mk ⟨0, 1/2, 0⟩ ⟨1/2, 1/2, 1/2⟩ (1/4) 0 ⟨0, 0, 0⟩ true (1/5) (1/100)
          100 true (1/2)) (1/5)).hitTimer = 1/2 - 1/5 ∧
    ((playerHitTimerDecay
        (Player.mk ⟨0, 1/2, 0⟩ ⟨1/2, 1/2, 1/2⟩ (1/4) 0 ⟨0, 0, 0⟩ true (1/5) (1/100)
          100 true (1/2)) (1/5)).isHit = true ↔ (0 : ℚ) < 1/2 - 1/5) :=
  C8_hit_timer_decay.1
    (Player.mk ⟨0, 1/2, 0⟩ ⟨1/2, 1/2, 1/2⟩ (1/4) 0 ⟨0, 0, 0⟩ true (1/5) (1/100)
      100 true (1/2)) (1/5) rfl

/-- C2 (amended): `ShootBullet` is a no-op when the stored bullet counter
(`bulletCount`, which increments only when a fresh inactive slot is taken
and never decreases — not the count of currently active bullets) has
already reached the capacity `MAX_BULLETS = 500`; otherwise it activates
the first inactive slot if one exists (incrementing the counter), and if no
inactive slot exists it overwrites the slot at index
`bulletCount % MAX_BULLETS` without touching the counter; the pool length
is preserved, so the number of slots in use never exceeds the capacity. -/
theorem C2_shoot_bullet (bullets : List Bullet) (count : ℕ) (position direction : Vec3)
    (fp : Bool) :
    (MAX_BULLETS ≤ count →
        ShootBullet bullets count position direction fp = (bullets, count)) ∧
    (∀ i, count < MAX_BULLETS →
        bullets.findIdx? (fun b => !b.active) = some i →
        ShootBullet bullets count position direction fp =
          (bullets.set i (mkBullet position direction fp), count + 1)) ∧
    (count < MAX_BULLETS →
        bullets.findIdx? (fun b => !b.active) = none →
        ShootBullet bullets count position direction fp =
          (bullets.set (count % MAX_BULLETS) (mkBullet position direction fp), count)) ∧
    ((ShootBullet bullets count position direction fp).1.length = bullets.length ∧
      (ShootBullet bullets count position direction fp).1.countP (fun b => b.active) ≤
        bullets.length) := by
  refine ⟨?_, ?_, ?_, ?_⟩
  · intro h; simp [ShootBullet, h]
  · intro i hc hfind
    simp [ShootBullet, Nat.not_le.mpr hc, hfind]
  · intro hc hfind
    simp [ShootBullet, Nat.not_le.mpr hc, hfind]
  · have hlen : (ShootBullet bullets count position direction fp).1.length = bullets.length := by
      unfold ShootBullet
      split
      · rfl
      · split <;> simp
    refine ⟨hlen, ?_⟩
    calc (ShootBullet bullets count position direction fp).1.countP (fun b => b.active)
        ≤ (ShootBullet bullets count position direction fp).1.length :=
          List.countP_le_length _
      _ = bullets.length := hlen

set_option maxRecDepth 40000 in
/-- Counterexample for C2 as stated: with a pool of 500 slots that are all
inactive (active bullet count 0, far from capacity) but a stored counter
that has reached 500, `ShootBullet` is a no-op even though the first
inactive slot (index 0) exists — the rejection test reads the monotone
counter, not the active bullet count. -/
theorem C2_counterexample :
    ShootBullet (List.replicate 500 (Bullet.mk ⟨0, 0, 0⟩ ⟨0, 0, 1⟩ (3/10) (3/20) false true))
        500 ⟨0, 1, 0⟩ ⟨0, 0, 1⟩ true =
      (List.replicate 500 (Bullet.mk ⟨0, 0, 0⟩ ⟨0, 0, 1⟩ (3/10) (3/20) false true), 500) ∧
    (List.replicate 500 (Bullet.mk ⟨0, 0, 0⟩ ⟨0, 0, 1⟩ (3/10) (3/20) false true)).countP
        (fun b => b.active) = 0 ∧
    (List.replicate 500 (Bullet.mk ⟨0, 0, 0⟩ ⟨0, 0, 1⟩ (3/10) (3/20) false true)).findIdx?
        (fun b => !b.active) = some 0 := by
  refine ⟨by simp [ShootBullet, MAX_BULLETS], ?_, ?_⟩ <;> decide

set_option maxRecDepth 40000 in
/-- Witness for C2 at concrete pools: a saturated counter rejects the shot,
and with counter 3 on a short two-slot pool the first inactive slot is
filled.  (The theorem is applied at a pool of length 500 for the first
part and at short explicit pools for the slot-selection parts, whose list
hypotheses are discharged by evaluation.) -/
theorem C2_shoot_bullet_witness :
    (MAX_BULLETS ≤ 500 ∧
      ShootBullet (List.replicate 500 (Bullet.mk ⟨0, 0, 0⟩ ⟨0, 0, 1⟩ (3/10) (3/20) true true))
          500 ⟨0, 1, 0⟩ ⟨0, 0, 1⟩ true =
        (List.replicate 500 (Bullet.mk ⟨0, 0, 0⟩ ⟨0, 0, 1⟩ (3/10) (3/20) true true), 500)) ∧
    ([Bullet.mk ⟨1, 1, 1⟩ ⟨1, 0, 0⟩ (3/10) (3/20) true false,
      Bullet.mk ⟨2, 2, 2⟩ ⟨1, 0, 0⟩ (3/10) (3/20) false false].findIdx?
        (fun b => !b.active) = some 1 ∧
      ShootBullet
          [Bullet.mk ⟨1, 1, 1⟩ ⟨1, 0, 0⟩ (3/10) (3/20) true false,
           Bullet.mk ⟨2, 2, 2⟩ ⟨1, 0, 0⟩ (3/10) (3/20) false false]
          3 ⟨0, 1, 0⟩ ⟨0, 0, 1⟩ true =
        ([Bullet.mk ⟨1, 1, 1⟩ ⟨1, 0, 0⟩ (3/10) (3/20) true false,
          Bullet.mk ⟨2, 2, 2⟩ ⟨1, 0, 0⟩ (3/10) (3/20) false false].set 1
            (mkBullet ⟨0, 1, 0⟩ ⟨0, 0, 1⟩ true), 3 + 1)) ∧
    ([Bullet.mk ⟨1, 1, 1⟩ ⟨1, 0, 0⟩ (3/10) (3/20) true false].findIdx?
        (fun b => !b.active) = none ∧
      ShootBullet [Bullet.mk ⟨1, 1, 1⟩ ⟨1, 0, 0⟩ (3/10) (3/20) true false]
          7 ⟨0, 1, 0⟩ ⟨0, 0, 1⟩ true =
        ([Bullet.mk ⟨1, 1, 1⟩ ⟨1, 0, 0⟩ (3/10) (3/20) true false].set (7 % MAX_BULLETS)
            (mkBullet ⟨0, 1, 0⟩ ⟨0, 0, 1⟩ true), 7)) :=
  ⟨⟨by decide,
    (C2_shoot_bullet _ 500 ⟨0, 1, 0⟩ ⟨0, 0, 1⟩ true).1 (by decide)⟩,
   ⟨by decide,
    (C2_shoot_bullet _ 3 ⟨0, 1, 0⟩ ⟨0, 0, 1⟩ true).2.1 1 (by decide) (by decide)⟩,
   ⟨by decide,
    (C2_shoot_bullet _ 7 ⟨0, 1, 0⟩ ⟨0, 0, 1⟩ true).2.2.1 (by decide) (by decide)⟩⟩

/-- On a map with no wall cells, the player-vs-map query leaves a player
whose base is strictly above 0.5 unchanged (no ground contact can be
found and the base-height rule does not fire). -/
theorem cc_player_map_nowall (p : Player) (m : GameMap)
    (hw : ∀ cx cz, cellIsWall m cx cz = false)
    (hy : ¬ p.position.y ≤ 1/2) :
    (CheckCollisionPlayerWithMap p m).2 = p := by
  by_cases hbox : CheckCollisionBoxes (GetPlayerBoundingBox p) (mapBounds m) = false
  · simp [CheckCollisionPlayerWithMap, hbox]
  · have hbox' : CheckCollisionBoxes (GetPlayerBoundingBox p) (mapBounds m) = true := by
      simpa using hbox
    simp only [CheckCollisionPlayerWithMap, hbox', offsets, playerScanStep, hw,
      Bool.false_eq_true, if_false, List.foldl_cons, List.foldl_nil, Bool.false_or]
    simp only [decide_eq_true_eq]
    simp
    intro h
    exact absurd h (by simpa using hy)

/-- On a map with no wall cells, the landing scan leaves an airborne player
unchanged. -/
theorem groundScan_nowall (p : Player) (m : GameMap)
    (hw : ∀ cx cz, cellIsWall m cx cz = false)
    (hg : p.isGrounded = false) :
    groundScan p m = p := by
  simp [groundScan, rowHasSnap, snapQualifies, hw, hg]

/-- C6: the jump handler on a grounded player with zero vertical velocity
sets the velocity to the jump impulse and clears `isGrounded`; an airborne
tick over empty surroundings reduces the vertical velocity by the gravity
constant and moves the position by the new velocity; and whenever the
integrated position falls below the 0.5 ground level, it is clamped to 0.5
with the vertical velocity zeroed and `isGrounded` set. -/
theorem C6_player_vertical (p : Player) (m : GameMap) (dt : ℚ) (space : Bool) :
    (p.isGrounded = true → p.velocity.y = 0 → space = true →
        (playerJumpStep p space).velocity.y = p.jumpForce ∧
        (playerJumpStep p space).isGrounded = false) ∧
    (p.isGrounded = false → (∀ cx cz, cellIsWall m cx cz = false) →
        1/2 < p.position.y + (p.velocity.y - p.gravity) →
        (UpdatePlayerPhysics p dt m).velocity.y = p.velocity.y - p.gravity ∧
        (UpdatePlayerPhysics p dt m).position.y = p.position.y + (p.velocity.y - p.gravity) ∧
        (UpdatePlayerPhysics p dt m).isGrounded = false) ∧
    (p.isGrounded = false → p.position.y + (p.velocity.y - p.gravity) < 1/2 →
        (UpdatePlayerPhysics p dt m).position.y = 1/2 ∧
        (UpdatePlayerPhysics p dt m).velocity.y = 0 ∧
        (UpdatePlayerPhysics p dt m).isGrounded = true) := by
  refine ⟨?_, ?_, ?_⟩
  · intro hg _ hs
    simp [playerJumpStep, hs, hg]
  · intro hg hw hgt
    have hstep : UpdatePlayerPhysics p dt m =
        (let p1 : Player :=
          { p with velocity := { p.velocity with y := p.velocity.y - p.gravity } }
         let p2 : Player :=
          { p1 with position := { p1.position with y := p1.position.y + p1.velocity.y } }
         let p3 : Player := { p2 with isGrounded := false }
         if p3.velocity.y < 0 then groundScan (CheckCollisionPlayerWithMap p3 m).2 m
         else p3) := by
      simp only [UpdatePlayerPhysics, hg, if_true]
      rw [if_neg (by simpa using not_lt.mpr (le_of_lt hgt))]
    rw [hstep]
    set p3 : Player :=
      { p with position := { p.position with y := p.position.y + (p.velocity.y - p.gravity) },
               velocity := { p.velocity with y := p.velocity.y - p.gravity },
               isGrounded := false } with hp3
    have hsame :
        (let p1 : Player :=
          { p with velocity := { p.velocity with y := p.velocity.y - p.gravity } }
         let p2 : Player :=
          { p1 with position := { p1.position with y := p1.position.y + p1.velocity.y } }
         let p3' : Player := { p2 with isGrounded := false }
         if p3'.velocity.y < 0 then groundScan (CheckCollisionPlayerWithMap p3' m).2 m
         else p3') =
        (if p3.velocity.y < 0 then groundScan (CheckCollisionPlayerWithMap p3 m).2 m
         else p3) := rfl
    rw [hsame]
    have hy3 : ¬ p3.position.y ≤ 1/2 := by
      simp only [hp3]
      simpa using not_le.mpr hgt
    split
    · rw [cc_player_map_nowall p3 m hw hy3, groundScan_nowall p3 m hw rfl]
      simp [hp3]
    · simp [hp3]
  · intro hg hlt
    simp only [UpdatePlayerPhysics, hg, if_true]
    rw [if_pos (by simpa using hlt)]
    simp

/-- Witness for C6 on an all-empty 4×4 map: a grounded player jumps
(velocity set to the 0.2 impulse, `isGrounded` cleared); an airborne player
at height 0.7 rising at 0.2 integrates to height 0.89 with velocity 0.19;
and an airborne player at height 0.6 falling at -0.2 is clamped to the 0.5
floor with zero velocity, re-grounded. -/
theorem C6_player_vertical_witness :
    ((playerJumpStep
        (Player.mk ⟨0, 1/2, 0⟩ ⟨1/2, 1/2, 1/2⟩ (1/4) 0 ⟨0, 0, 0⟩ true (1/5) (1/100)
          100 false 0) true).velocity.y = 1/5 ∧
      (playerJumpStep
        (Player.mk ⟨0, 1/2, 0⟩ ⟨1/2, 1/2, 1/2⟩ (1/4) 0 ⟨0, 0, 0⟩ true (1/5) (1/100)
          100 false 0) true).isGrounded = false) ∧
    ((UpdatePlayerPhysics
        (Player.mk ⟨0, 7/10, 0⟩ ⟨1/2, 1/2, 1/2⟩ (1/4) 0 ⟨0, 1/5, 0⟩ false (1/5) (1/100)
          100 false 0) (1/60)
        (GameMap.mk 4 4 (fun _ _ => (0, 0, 0)) ⟨⟨-10, 0, -10⟩, ⟨10, 1, 10⟩⟩ ⟨0, 0, 0⟩)).velocity.y =
        1/5 - 1/100 ∧
      (UpdatePlayerPhysics
        (Player.mk ⟨0, 7/10, 0⟩ ⟨1/2, 1/2, 1/2⟩ (1/4) 0 ⟨0, 1/5, 0⟩ false (1/5) (1/100)
          100 false 0) (1/60)
        (GameMap.mk 4 4 (fun _ _ => (0, 0, 0)) ⟨⟨-10, 0, -10⟩, ⟨10, 1, 10⟩⟩ ⟨0, 0, 0⟩)).position.y =
        7/10 + (1/5 - 1/100)) ∧
    ((UpdatePlayerPhysics
        (Player.mk ⟨0, 3/5, 0⟩ ⟨1/2, 1/2, 1/2⟩ (1/4) 0 ⟨0, -(1/5), 0⟩ false (1/5) (1/100)
          100 false 0) (1/60)
        (GameMap.mk 4 4 (fun _ _ => (0, 0, 0)) ⟨⟨-10, 0, -10⟩, ⟨10, 1, 10⟩⟩ ⟨0, 0, 0⟩)).position.y =
        1/2 ∧
      (UpdatePlayerPhysics
        (Player.mk ⟨0, 3/5, 0⟩ ⟨1/2, 1/2, 1/2⟩ (1/4) 0 ⟨0, -(1/5), 0⟩ false (1/5) (1/100)
          100 false 0) (1/60)
        (GameMap.mk 4 4 (fun _ _ => (0, 0, 0)) ⟨⟨-10, 0, -10⟩, ⟨10, 1, 10⟩⟩ ⟨0, 0, 0⟩)).isGrounded =
        true) := by
  have hw : ∀ cx cz,
      cellIsWall (GameMap.mk 4 4 (fun _ _ => (0, 0, 0)) ⟨⟨-10, 0, -10⟩, ⟨10, 1, 10⟩⟩ ⟨0, 0, 0⟩)
        cx cz = false := by
    intro cx cz
    simp [cellIsWall]
  refine ⟨?_, ?_, ?_⟩
  · have h := (C6_player_vertical
      (Player.mk ⟨0, 1/2, 0⟩ ⟨1/2, 1/2, 1/2⟩ (1/4) 0 ⟨0, 0, 0⟩ true (1/5) (1/100) 100 false 0)
      (GameMap.mk 4 4 (fun _ _ => (0, 0, 0)) ⟨⟨-10, 0, -10⟩, ⟨10, 1, 10⟩⟩ ⟨0, 0, 0⟩)
      (1/60) true).1 rfl rfl rfl
    exact h
  · have h := (C6_player_vertical
      (Player.mk ⟨0, 7/10, 0⟩ ⟨1/2, 1/2, 1/2⟩ (1/4) 0 ⟨0, 1/5, 0⟩ false (1/5) (1/100) 100 false 0)
      (GameMap.mk 4 4 (fun _ _ => (0, 0, 0)) ⟨⟨-10, 0, -10⟩, ⟨10, 1, 10⟩⟩ ⟨0, 0, 0⟩)
      (1/60) true).2.1 rfl hw (by norm_num)
    exact ⟨h.1, h.2.1⟩
  · have h := (C6_player_vertical
      (Player.mk ⟨0, 3/5, 0⟩ ⟨1/2, 1/2, 1/2⟩ (1/4) 0 ⟨0, -(1/5), 0⟩ false (1/5) (1/100) 100 false 0)
      (GameMap.mk 4 4 (fun _ _ => (0, 0, 0)) ⟨⟨-10, 0, -10⟩, ⟨10, 1, 10⟩⟩ ⟨0, 0, 0⟩)
      (1/60) true).2.2 rfl (by norm_num)
    exact ⟨h.1, h.2.2⟩

/-- The enemy hit-timer decay touches only `isHit` and `hitTimer`. -/
theorem enemyHitTimerDecay_fields (e : Enemy) (dt : ℚ) :
    (enemyHitTimerDecay e dt).position = e.position ∧
    (enemyHitTimerDecay e dt).shootTimer = e.shootTimer ∧
    (enemyHitTimerDecay e dt).speed = e.speed ∧
    (enemyHitTimerDecay e dt).shootCooldown = e.shootCooldown ∧
    (enemyHitTimerDecay e dt).size = e.size ∧
    (enemyHitTimerDecay e dt).active = e.active := by
  by_cases hh : e.isHit <;> by_cases ht : e.hitTimer - dt ≤ 0 <;>
    simp [enemyHitTimerDecay, hh, ht]

/-- The axis-by-axis enemy move touches only `position`. -/
theorem enemyMove_fields (e : Enemy) (dir : Vec3) (m : GameMap) :
    (enemyMove e dir m).shootTimer = e.shootTimer ∧
    (enemyMove e dir m).shootCooldown = e.shootCooldown ∧
    (enemyMove e dir m).active = e.active := by
  simp only [enemyMove]
  split <;> split <;> simp


/-- The movement phase touches only `position`. -/
theorem enemyMovePhase_fields (e1 : Enemy) (pl : Player) (m : GameMap) (nrmDir : Vec3) :
    (enemyMovePhase e1 pl m nrmDir).shootTimer = e1.shootTimer ∧
    (enemyMovePhase e1 pl m nrmDir).shootCooldown = e1.shootCooldown ∧
    (enemyMovePhase e1 pl m nrmDir).active = e1.active := by
  simp only [enemyMovePhase]
  split
  · exact enemyMove_fields _ _ _
  · exact ⟨rfl, rfl, rfl⟩

/-- Within the 3-unit standoff the movement phase does nothing. -/
theorem enemyMovePhase_standoff (e1 : Enemy) (pl : Player) (m : GameMap) (nrmDir : Vec3)
    (hle : normSq (vsub pl.position e1.position) ≤ 3 ^ 2) :
    enemyMovePhase e1 pl m nrmDir = e1 := by
  unfold enemyMovePhase
  rw [if_neg (not_lt.mpr hle)]

/-- C9: an active enemy at squared distance at most 9 (distance within the
3-unit standoff) from the player does not move this tick; its shoot timer
is decremented by `dt` regardless of distance; and when the decremented
timer is at or below 0 with the (pre-move) squared distance under 100
(distance under 10 units), the enemy fires a bullet from its post-move
sprite center with the supplied aim direction and resets the timer to the
base cooldown plus `jr/100`, a jitter within `[-0.5, 0.5]` seconds for the
random `jr` in `[-50, 50]`. -/
theorem C9_enemy_standoff (e : Enemy) (pl : Player) (dt : ℚ) (m : GameMap)
    (nrmDir nrmAim : Vec3) (jr : ℤ) (bullets : List Bullet) (count : ℕ)
    (he : e.active = true) :
    (normSq (vsub pl.position e.position) ≤ 3 ^ 2 →
        (enemyStep e pl dt m nrmDir nrmAim jr bullets count).1.position = e.position) ∧
    (¬ (e.shootTimer - dt ≤ 0 ∧ normSq (vsub pl.position e.position) < 10 ^ 2) →
        (enemyStep e pl dt m nrmDir nrmAim jr bullets count).1.shootTimer =
          e.shootTimer - dt ∧
        (enemyStep e pl dt m nrmDir nrmAim jr bullets count).2 = (bullets, count)) ∧
    (e.shootTimer - dt ≤ 0 ∧ normSq (vsub pl.position e.position) < 10 ^ 2 →
        (enemyStep e pl dt m nrmDir nrmAim jr bullets count).2 =
          ShootBullet bullets count
            ⟨(enemyStep e pl dt m nrmDir nrmAim jr bullets count).1.position.x,
             (enemyStep e pl dt m nrmDir nrmAim jr bullets count).1.position.y + 1/2,
             (enemyStep e pl dt m nrmDir nrmAim jr bullets count).1.position.z⟩
            nrmAim false ∧
        (enemyStep e pl dt m nrmDir nrmAim jr bullets count).1.shootTimer =
          e.shootCooldown + (jr : ℚ) / 100 ∧
        (-50 ≤ jr → jr ≤ 50 →
          e.shootCooldown - 1/2 ≤
              (enemyStep e pl dt m nrmDir nrmAim jr bullets count).1.shootTimer ∧
            (enemyStep e pl dt m nrmDir nrmAim jr bullets count).1.shootTimer ≤
              e.shootCooldown + 1/2)) := by
  obtain ⟨hdp, hdt2, hds, hdc, hdz, hda⟩ := enemyHitTimerDecay_fields e dt
  obtain ⟨hmt, hmc, hma⟩ := enemyMovePhase_fields (enemyHitTimerDecay e dt) pl m nrmDir
  set e2 : Enemy := enemyMovePhase (enemyHitTimerDecay e dt) pl m nrmDir with he2
  have hstep : enemyStep e pl dt m nrmDir nrmAim jr bullets count =
      (if e.shootTimer - dt ≤ 0 ∧ normSq (vsub pl.position e.position) < 10 ^ 2 then
         ({ e2 with shootTimer := e2.shootCooldown + (jr : ℚ) / 100 },
           (ShootBullet bullets count ⟨e2.position.x, e2.position.y + 1/2, e2.position.z⟩
             nrmAim false).1,
           (ShootBullet bullets count ⟨e2.position.x, e2.position.y + 1/2, e2.position.z⟩
             nrmAim false).2)
       else ({ e2 with shootTimer := e.shootTimer - dt }, bullets, count)) := by
    simp only [enemyStep, he, Bool.true_eq_false, if_false, ← he2, hmt, hdt2, hdp]
  refine ⟨?_, ?_, ?_⟩
  · intro hle
    have hphase : e2 = enemyHitTimerDecay e dt := by
      rw [he2]
      exact enemyMovePhase_standoff _ _ _ _ (by rw [hdp]; exact hle)
    rw [hstep]
    split <;> simp [hphase, hdp]
  · intro hfire
    rw [hstep, if_neg hfire]
    exact ⟨rfl, rfl⟩
  · intro hfire
    have hts : (enemyStep e pl dt m nrmDir nrmAim jr bullets count).1.shootTimer =
        e.shootCooldown + (jr : ℚ) / 100 := by
      rw [hstep, if_pos hfire]
      simp [hmc, hdc]
    refine ⟨?_, hts, ?_⟩
    · rw [hstep, if_pos hfire]
    · intro hlo hhi
      rw [hts]
      have h1 : (-1 : ℚ)/2 ≤ (jr : ℚ) / 100 := by
        rw [div_le_div_iff (by norm_num) (by norm_num)]
        push_cast
        have hj : (-50 : ℚ) ≤ (jr : ℚ) := by exact_mod_cast hlo
        linarith
      have h2 : (jr : ℚ) / 100 ≤ 1/2 := by
        rw [div_le_div_iff (by norm_num) (by norm_num)]
        push_cast
        have hj : (jr : ℚ) ≤ 50 := by exact_mod_cast hhi
        linarith
      constructor <;> linarith

/-- Witness for C9: an active enemy 2.5 units from the player (within the
3-unit standoff) on an empty map keeps its position this tick, yet its
expired cooldown fires and resets the timer to `2 + 25/100`, inside the
`[1.5, 2.5]` jitter band. -/
theorem C9_enemy_standoff_witness :
    (enemyStep (Enemy.mk ⟨0, 1/2, 0⟩ ⟨1/2, 1/2, 1/2⟩ (13/100) (1/20) 2 true 30 false 0)
        (Player.mk ⟨0, 1/2, 5/2⟩ ⟨1/2, 1/2, 1/2⟩ (1/4) 0 ⟨0, 0, 0⟩ true (1/5) (1/100)
          100 false 0) (1/10)
        (GameMap.mk 4 4 (fun _ _ => (0, 0, 0)) ⟨⟨-10, 0, -10⟩, ⟨10, 1, 10⟩⟩ ⟨0, 0, 0⟩)
        ⟨0, 0, 1⟩ ⟨0, 0, 1⟩ 25 [] 0).1.position = ⟨0, 1/2, 0⟩ ∧
    (enemyStep (Enemy.mk ⟨0, 1/2, 0⟩ ⟨1/2, 1/2, 1/2⟩ (13/100) (1/20) 2 true 30 false 0)
        (Player.mk ⟨0, 1/2, 5/2⟩ ⟨1/2, 1/2, 1/2⟩ (1/4) 0 ⟨0, 0, 0⟩ true (1/5) (1/100)
          100 false 0) (1/10)
        (GameMap.mk 4 4 (fun _ _ => (0, 0, 0)) ⟨⟨-10, 0, -10⟩, ⟨10, 1, 10⟩⟩ ⟨0, 0, 0⟩)
        ⟨0, 0, 1⟩ ⟨0, 0, 1⟩ 25 [] 0).1.shootTimer = 2 + ((25 : ℤ) : ℚ) / 100 ∧
    (2 - 1/2 ≤
        (enemyStep (Enemy.mk ⟨0, 1/2, 0⟩ ⟨1/2, 1/2, 1/2⟩ (13/100) (1/20) 2 true 30 false 0)
          (Player.mk ⟨0, 1/2, 5/2⟩ ⟨1/2, 1/2, 1/2⟩ (1/4) 0 ⟨0, 0, 0⟩ true (1/5) (1/100)
            100 false 0) (1/10)
          (GameMap.mk 4 4 (fun _ _ => (0, 0, 0)) ⟨⟨-10, 0, -10⟩, ⟨10, 1, 10⟩⟩ ⟨0, 0, 0⟩)
          ⟨0, 0, 1⟩ ⟨0, 0, 1⟩ 25 [] 0).1.shootTimer ∧
      (enemyStep (Enemy.mk ⟨0, 1/2, 0⟩ ⟨1/2, 1/2, 1/2⟩ (13/100) (1/20) 2 true 30 false 0)
          (Player.mk ⟨0, 1/2, 5/2⟩ ⟨1/2, 1/2, 1/2⟩ (1/4) 0 ⟨0, 0, 0⟩ true (1/5) (1/100)
            100 false 0) (1/10)
          (GameMap.mk 4 4 (fun _ _ => (0, 0, 0)) ⟨⟨-10, 0, -10⟩, ⟨10, 1, 10⟩⟩ ⟨0, 0, 0⟩)
          ⟨0, 0, 1⟩ ⟨0, 0, 1⟩ 25 [] 0).1.shootTimer ≤ 2 + 1/2) := by
  have h := C9_enemy_standoff
    (Enemy.mk ⟨0, 1/2, 0⟩ ⟨1/2, 1/2, 1/2⟩ (13/100) (1/20) 2 true 30 false 0)
    (Player.mk ⟨0, 1/2, 5/2⟩ ⟨1/2, 1/2, 1/2⟩ (1/4) 0 ⟨0, 0, 0⟩ true (1/5) (1/100)
      100 false 0) (1/10)
    (GameMap.mk 4 4 (fun _ _ => (0, 0, 0)) ⟨⟨-10, 0, -10⟩, ⟨10, 1, 10⟩⟩ ⟨0, 0, 0⟩)
    ⟨0, 0, 1⟩ ⟨0, 0, 1⟩ 25 [] 0 rfl
  exact ⟨h.1 (by decide), (h.2.2 (by decide)).2.1,
    (h.2.2 (by decide)).2.2 (by decide) (by decide)⟩

/-- A bullet that hits no enemy leaves the enemy list unchanged and is not
consumed. -/
theorem bulletHitEnemies_no_hit (b : Bullet) (es : List Enemy)
    (h : ∀ e ∈ es,
      (e.active && CheckCollisionSphereBox b.position b.radius (GetEnemyBoundingBox e)) =
        false) :
    bulletHitEnemies b es = (es, false) := by
  induction es with
  | nil => rfl
  | cons e rest ih =>
    have hh := h e (List.mem_cons_self e rest)
    have ht := ih fun e' he' => h e' (List.mem_cons_of_mem e he')
    simp [bulletHitEnemies, hh, ht]

/-- The enemy scan stops at the first hit active enemy: every earlier enemy
is left alone, the hit enemy is damaged only outside its hit window, the
tail is untouched, and the bullet is consumed. -/
theorem bulletHitEnemies_first_hit (b : Bullet) (es1 : List Enemy) (ej : Enemy)
    (es2 : List Enemy)
    (h1 : ∀ e ∈ es1,
      (e.active && CheckCollisionSphereBox b.position b.radius (GetEnemyBoundingBox e)) =
        false)
    (hj : (ej.active && CheckCollisionSphereBox b.position b.radius (GetEnemyBoundingBox ej)) =
        true) :
    bulletHitEnemies b (es1 ++ ej :: es2) =
      (es1 ++ (if ej.isHit = false then damageEnemyHit ej else ej) :: es2, true) := by
  induction es1 with
  | nil => simp [bulletHitEnemies, hj]
  | cons e rest ih =>
    have hh := h1 e (List.mem_cons_self e rest)
    have ht := ih fun e' he' => h1 e' (List.mem_cons_of_mem e he')
    simp [bulletHitEnemies, hh, ht]

/-- Per-bullet processing changes the player state or the enemy list, never
both: the three hit branches (map, player, enemies) are mutually
exclusive. -/
theorem processBullet_one_target (b : Bullet) (pl : Player) (es : List Enemy) (m : GameMap) :
    (processBullet b pl es m).2.1 = pl ∨ (processBullet b pl es m).2.2 = es := by
  by_cases h1 : b.active = false
  · left; simp [processBullet, h1]
  · by_cases h2 : CheckCollisionBulletWithMap b m = true
    · left; simp [processBullet, h1, h2]
    · by_cases h3 : b.fromPlayer = false
      · right
        by_cases h4 : CheckCollisionSphereBox b.position b.radius (GetPlayerBoundingBox pl) =
            true
        · simp [processBullet, h1, h2, h3, h4]
        · simp [processBullet, h1, h2, h3, h4]
      · left
        simp [processBullet, h1, h2, h3]

/-- C4: an inactive bullet does nothing; a map hit only deactivates the
bullet; an enemy bullet striking a player inside the hit window deactivates
without touching the player (zero damage) or the enemies; a player bullet
reaching its first hit active enemy (in index order, everything before it
missing) deactivates, changes at most that enemy — and changes nothing at
all in the enemy list when that enemy is inside its hit window; and one
bullet never changes both the player and the enemy list in a tick. -/
theorem C4_bullet_combat (b : Bullet) (pl : Player) (es es1 es2 : List Enemy) (ej : Enemy)
    (m : GameMap) :
    (b.active = false → processBullet b pl es m = (b, pl, es)) ∧
    (b.active = true → CheckCollisionBulletWithMap b m = true →
        processBullet b pl es m = ({ b with active := false }, pl, es)) ∧
    (b.active = true → CheckCollisionBulletWithMap b m = false → b.fromPlayer = false →
        CheckCollisionSphereBox b.position b.radius (GetPlayerBoundingBox pl) = true →
        pl.isHit = true →
        processBullet b pl es m = ({ b with active := false }, pl, es)) ∧
    (b.active = true → CheckCollisionBulletWithMap b m = false → b.fromPlayer = true →
        (∀ e ∈ es1,
          (e.active && CheckCollisionSphereBox b.position b.radius (GetEnemyBoundingBox e)) =
            false) →
        (ej.active && CheckCollisionSphereBox b.position b.radius (GetEnemyBoundingBox ej)) =
            true →
        processBullet b pl (es1 ++ ej :: es2) m =
          ({ b with active := false }, pl,
            es1 ++ (if ej.isHit = false then damageEnemyHit ej else ej) :: es2) ∧
        (ej.isHit = true →
          processBullet b pl (es1 ++ ej :: es2) m =
            ({ b with active := false }, pl, es1 ++ ej :: es2))) ∧
    ((processBullet b pl es m).2.1 ≠ pl → (processBullet b pl es m).2.2 = es) ∧
    ((processBullet b pl es m).2.2 ≠ es → (processBullet b pl es m).2.1 = pl) := by
  refine ⟨?_, ?_, ?_, ?_, ?_, ?_⟩
  · intro h; simp [processBullet, h]
  · intro hb hm; simp [processBullet, hb, hm]
  · intro hb hm hfp hsp hhit
    simp [processBullet, hb, hm, hfp, hsp, hhit]
  · intro hb hm hfp h1 hj
    have hscan := bulletHitEnemies_first_hit b es1 ej es2 h1 hj
    constructor
    · simp [processBullet, hb, hm, hfp, hscan]
    · intro hjHit
      simp [processBullet, hb, hm, hfp, hscan, hjHit]
  · intro hne
    rcases processBullet_one_target b pl es m with h | h
    · exact absurd h hne
    · exact h
  · intro hne
    rcases processBullet_one_target b pl es m with h | h
    · exact h
    · exact absurd h hne

/-- Witness for C4 on an empty 4×4 map: a player bullet sitting inside an
enemy that is already in its hit window (first slot holding a distant,
missed enemy) is deactivated while player and both enemies are unchanged;
an inactive bullet does nothing. -/
theorem C4_bullet_combat_witness :
    processBullet (Bullet.mk ⟨1, 3/4, 1⟩ ⟨0, 0, 1⟩ (3/10) (3/20) true true)
        (Player.mk ⟨0, 1/2, -2⟩ ⟨1/2, 1/2, 1/2⟩ (1/4) 0 ⟨0, 0, 0⟩ true (1/5) (1/100)
          100 false 0)
        ([Enemy.mk ⟨5, 1/2, 5⟩ ⟨1/2, 1/2, 1/2⟩ (13/100) 1 2 true 30 false 0] ++
          Enemy.mk ⟨1, 1/2, 1⟩ ⟨1/2, 1/2, 1/2⟩ (13/100) 1 2 true 30 true (1/10) :: [])
        (GameMap.mk 4 4 (fun _ _ => (0, 0, 0)) ⟨⟨-10, 0, -10⟩, ⟨10, 1, 10⟩⟩ ⟨0, 0, 0⟩) =
      ({ Bullet.mk ⟨1, 3/4, 1⟩ ⟨0, 0, 1⟩ (3/10) (3/20) true true with active := false },
        Player.mk ⟨0, 1/2, -2⟩ ⟨1/2, 1/2, 1/2⟩ (1/4) 0 ⟨0, 0, 0⟩ true (1/5) (1/100)
          100 false 0,
        [Enemy.mk ⟨5, 1/2, 5⟩ ⟨1/2, 1/2, 1/2⟩ (13/100) 1 2 true 30 false 0] ++
          Enemy.mk ⟨1, 1/2, 1⟩ ⟨1/2, 1/2, 1/2⟩ (13/100) 1 2 true 30 true (1/10) :: []) ∧
    processBullet (Bullet.mk ⟨1, 3/4, 1⟩ ⟨0, 0, 1⟩ (3/10) (3/20) false true)
        (Player.mk ⟨0, 1/2, -2⟩ ⟨1/2, 1/2, 1/2⟩ (1/4) 0 ⟨0, 0, 0⟩ true (1/5) (1/100)
          100 false 0)
        []
        (GameMap.mk 4 4 (fun _ _ => (0, 0, 0)) ⟨⟨-10, 0, -10⟩, ⟨10, 1, 10⟩⟩ ⟨0, 0, 0⟩) =
      (Bullet.mk ⟨1, 3/4, 1⟩ ⟨0, 0, 1⟩ (3/10) (3/20) false true,
        Player.mk ⟨0, 1/2, -2⟩ ⟨1/2, 1/2, 1/2⟩ (1/4) 0 ⟨0, 0, 0⟩ true (1/5) (1/100)
          100 false 0, []) := by
  constructor
  · exact (C4_bullet_combat
      (Bullet.mk ⟨1, 3/4, 1⟩ ⟨0, 0, 1⟩ (3/10) (3/20) true true)
      (Player.mk ⟨0, 1/2, -2⟩ ⟨1/2, 1/2, 1/2⟩ (1/4) 0 ⟨0, 0, 0⟩ true (1/5) (1/100)
        100 false 0)
      []
      [Enemy.mk ⟨5, 1/2, 5⟩ ⟨1/2, 1/2, 1/2⟩ (13/100) 1 2 true 30 false 0]
      []
      (Enemy.mk ⟨1, 1/2, 1⟩ ⟨1/2, 1/2, 1/2⟩ (13/100) 1 2 true 30 true (1/10))
      (GameMap.mk 4 4 (fun _ _ => (0, 0, 0)) ⟨⟨-10, 0, -10⟩, ⟨10, 1, 10⟩⟩ ⟨0, 0, 0⟩)).2.2.2.1
      rfl (by decide) rfl (by decide) (by decide) |>.2 rfl
  · exact (C4_bullet_combat
      (Bullet.mk ⟨1, 3/4, 1⟩ ⟨0, 0, 1⟩ (3/10) (3/20) false true)
      (Player.mk ⟨0, 1/2, -2⟩ ⟨1/2, 1/2, 1/2⟩ (1/4) 0 ⟨0, 0, 0⟩ true (1/5) (1/100)
        100 false 0)
      [] [] []
      (Enemy.mk ⟨1, 1/2, 1⟩ ⟨1/2, 1/2, 1/2⟩ (13/100) 1 2 true 30 true (1/10))
      (GameMap.mk 4 4 (fun _ _ => (0, 0, 0)) ⟨⟨-10, 0, -10⟩, ⟨10, 1, 10⟩⟩ ⟨0, 0, 0⟩)).1 rfl

/-- C1 (amended): only the enemy resolves horizontal movement axis-by-axis
— x applied and reverted alone on collision, then z applied and reverted
alone on collision, which retains the other axis (wall-sliding); the
player's movement instead applies both axis deltas, runs the map query
once, and on collision restores the entire pre-move position, so a
diagonal player move that collides on one axis loses both axes. -/
theorem C1_axis_movement (p : Player) (e : Enemy) (dir : Vec3) (m : GameMap)
    (right left down up : Bool) :
    ((CheckCollisionPlayerWithMap (applyMoveKeys p right left down up) m).1 = true →
        (playerHorizontalMove p right left down up m).position = p.position) ∧
    (CheckCollisionEnemyWithMap
        { e with position := { e.position with x := e.position.x + dir.x } } m = true →
      CheckCollisionEnemyWithMap
        { e with position := { e.position with z := e.position.z + dir.z } } m = false →
      enemyMove e dir m = { e with position := { e.position with z := e.position.z + dir.z } }) := by
  constructor
  · intro hc
    simp [playerHorizontalMove, hc]
  · intro h1 h2
    simp [enemyMove, h1, h2]

set_option maxRecDepth 40000 in
/-- Counterexample for C1 as stated: a player at `(1.1, 0.5, 1)` moving
diagonally right+up (`x + 0.25`, `z - 0.25`) on a map whose only wall cell
is `(2, 1)`: the diagonal destination collides, the z-only destination
`(1.1, 0.5, 0.75)` does not, yet the code restores the whole position —
the non-colliding z-axis motion is not retained. -/
theorem C1_counterexample :
    (playerHorizontalMove
        (Player.mk ⟨11/10, 1/2, 1⟩ ⟨1/2, 1/2, 1/2⟩ (1/4) 0 ⟨0, 0, 0⟩ true (1/5) (1/100)
          100 false 0) true false false true
        (GameMap.mk 4 4 (fun cx cz => if cx = 2 ∧ cz = 1 then (255, 255, 255) else (0, 0, 0))
          ⟨⟨-10, 0, -10⟩, ⟨10, 1, 10⟩⟩ ⟨0, 0, 0⟩)).position = ⟨11/10, 1/2, 1⟩ ∧
    (CheckCollisionPlayerWithMap
        (Player.mk ⟨11/10, 1/2, 3/4⟩ ⟨1/2, 1/2, 1/2⟩ (1/4) 2 ⟨0, 0, 0⟩ true (1/5) (1/100)
          100 false 0)
        (GameMap.mk 4 4 (fun cx cz => if cx = 2 ∧ cz = 1 then (255, 255, 255) else (0, 0, 0))
          ⟨⟨-10, 0, -10⟩, ⟨10, 1, 10⟩⟩ ⟨0, 0, 0⟩)).1 = false ∧
    (CheckCollisionPlayerWithMap
        (applyMoveKeys
          (Player.mk ⟨11/10, 1/2, 1⟩ ⟨1/2, 1/2, 1/2⟩ (1/4) 0 ⟨0, 0, 0⟩ true (1/5) (1/100)
            100 false 0) true false false true)
        (GameMap.mk 4 4 (fun cx cz => if cx = 2 ∧ cz = 1 then (255, 255, 255) else (0, 0, 0))
          ⟨⟨-10, 0, -10⟩, ⟨10, 1, 10⟩⟩ ⟨0, 0, 0⟩)).1 = true ∧
    ((1 : ℚ)) ≠ 1 - 1/4 := by
  refine ⟨?_, ?_, ?_, by decide⟩ <;> decide

set_option maxRecDepth 40000 in
/-- Witness for C1 at the same wall layout: the diagonal player move
collides and the whole position is restored; the enemy attempting the same
diagonal from the same spot collides on x only and slides along z to
`(1.1, 0.5, 0.75)`. -/
theorem C1_axis_movement_witness :
    (playerHorizontalMove
        (Player.mk ⟨11/10, 1/2, 1⟩ ⟨1/2, 1/2, 1/2⟩ (1/4) 1 ⟨0, 0, 0⟩ true (1/5) (1/100)
          100 false 0) true false false true
        (GameMap.mk 4 4 (fun cx cz => if cx = 2 ∧ cz = 1 then (255, 255, 255) else (0, 0, 0))
          ⟨⟨-10, 0, -10⟩, ⟨10, 1, 10⟩⟩ ⟨0, 0, 0⟩)).position = ⟨11/10, 1/2, 1⟩ ∧
    enemyMove (Enemy.mk ⟨11/10, 1/2, 1⟩ ⟨1/2, 1/2, 1/2⟩ (13/100) 1 2 true 30 false 0)
        ⟨1/4, 0, -(1/4)⟩
        (GameMap.mk 4 4 (fun cx cz => if cx = 2 ∧ cz = 1 then (255, 255, 255) else (0, 0, 0))
          ⟨⟨-10, 0, -10⟩, ⟨10, 1, 10⟩⟩ ⟨0, 0, 0⟩) =
      { Enemy.mk ⟨11/10, 1/2, 1⟩ ⟨1/2, 1/2, 1/2⟩ (13/100) 1 2 true 30 false 0 with
          position := ⟨11/10, 1/2, 1 + -(1/4)⟩ } := by
  have h := C1_axis_movement
    (Player.mk ⟨11/10, 1/2, 1⟩ ⟨1/2, 1/2, 1/2⟩ (1/4) 1 ⟨0, 0, 0⟩ true (1/5) (1/100)
      100 false 0)
    (Enemy.mk ⟨11/10, 1/2, 1⟩ ⟨1/2, 1/2, 1/2⟩ (13/100) 1 2 true 30 false 0)
    ⟨1/4, 0, -(1/4)⟩
    (GameMap.mk 4 4 (fun cx cz => if cx = 2 ∧ cz = 1 then (255, 255, 255) else (0, 0, 0))
      ⟨⟨-10, 0, -10⟩, ⟨10, 1, 10⟩⟩ ⟨0, 0, 0⟩)
    true false false true
  exact ⟨h.1 (by decide), h.2 (by decide) (by decide)⟩

/-- C3 (amended): a player-fired bullet's direction (mouse aim normalized,
y zeroed, re-normalized) has vertical component exactly 0 and is
unit-length whenever the y-zeroed aim is nonzero; an enemy-fired bullet's
direction (the normalized center-to-center aim) is unit-length whenever the
aim is nonzero, but its vertical component is zero exactly when the player
and the enemy are at the same base height — it is not forced to zero. -/
theorem C3_bullet_directions (pl : Player) (target n1 n2 : Vec3) (e : Enemy) (u : Vec3)
    (bullets : List Bullet) (count : ℕ) :
    (Normalizes (playerAimRaw pl target) n1 → Normalizes (setYZero n1) n2 →
        n2.y = 0 ∧
        (setYZero n1 ≠ vzero → normSq n2 = 1) ∧
        playerFireStep pl n2 bullets count =
          ShootBullet bullets count ⟨pl.position.x, pl.position.y + 1/2, pl.position.z⟩
            n2 true) ∧
    (Normalizes (enemyAimRaw e pl) u →
        (enemyAimRaw e pl ≠ vzero → normSq u = 1) ∧
        (u.y = 0 ↔ pl.position.y = e.position.y)) := by
  constructor
  · intro _ hn2
    refine ⟨?_, ?_, rfl⟩
    · rcases hn2 with ⟨_, hu⟩ | ⟨_, c, _, hu, _⟩
      · rw [hu]; rfl
      · rw [hu]; simp [vscale, setYZero]
    · intro hne
      rcases hn2 with ⟨hz, _⟩ | ⟨_, c, _, _, hn⟩
      · exact absurd hz hne
      · exact hn
  · intro hu
    constructor
    · intro hne
      rcases hu with ⟨hz, _⟩ | ⟨_, c, _, _, hn⟩
      · exact absurd hz hne
      · exact hn
    · rcases hu with ⟨hz, huz⟩ | ⟨_, c, hc, hueq, _⟩
      · constructor
        · intro _
          have hy := congrArg Vec3.y hz
          simp only [enemyAimRaw, vsub, vzero] at hy
          linarith
        · intro _
          rw [huz]
          rfl
      · rw [hueq]
        simp only [vscale, enemyAimRaw, vsub]
        constructor
        · intro h0
          rcases mul_eq_zero.mp h0 with hc0 | hy
          · exact absurd hc0 (ne_of_gt hc)
          · linarith
        · intro heq
          rw [heq]
          ring

/-- Counterexample for C3 as stated: an enemy at base height 0.5 shooting
at a jumped player at base height 2.9 and horizontal offset `(0, 1.8)`
spawns a bullet whose direction is the unit vector `(0, 4/5, 3/5)` — the
vertical component `4/5` of an enemy-fired bullet is not zero.  The last
three conjuncts exhibit that `(0, 4/5, 3/5)` is exactly the normalization
of the aim vector (a positive rescaling by `1/3` of squared length 1). -/
theorem C3_counterexample :
    (enemyStep (Enemy.mk ⟨0, 1/2, 0⟩ ⟨1/2, 1/2, 1/2⟩ (13/100) 0 2 true 30 false 0)
        (Player.mk ⟨0, 29/10, 9/5⟩ ⟨1/2, 1/2, 1/2⟩ (1/4) 0 ⟨0, 0, 0⟩ false (1/5) (1/100)
          100 false 0) (1/100)
        (GameMap.mk 4 4 (fun _ _ => (0, 0, 0)) ⟨⟨-10, 0, -10⟩, ⟨10, 1, 10⟩⟩ ⟨0, 0, 0⟩)
        ⟨0, 0, 1⟩ ⟨0, 4/5, 3/5⟩ 0
        [Bullet.mk ⟨0, 0, 0⟩ ⟨0, 0, 1⟩ (3/10) (3/20) false false] 0).2.1 =
      [mkBullet ⟨0, 1, 0⟩ ⟨0, 4/5, 3/5⟩ false] ∧
    (mkBullet ⟨0, 1, 0⟩ ⟨0, 4/5, 3/5⟩ false).direction.y = 4/5 ∧
    ((4 : ℚ)/5 ≠ 0) ∧
    (⟨0, 4/5, 3/5⟩ : Vec3) =
      vscale (1/3)
        (enemyAimRaw (Enemy.mk ⟨0, 1/2, 0⟩ ⟨1/2, 1/2, 1/2⟩ (13/100) 0 2 true 30 false 0)
          (Player.mk ⟨0, 29/10, 9/5⟩ ⟨1/2, 1/2, 1/2⟩ (1/4) 0 ⟨0, 0, 0⟩ false (1/5) (1/100)
            100 false 0)) ∧
    normSq (⟨0, 4/5, 3/5⟩ : Vec3) = 1 ∧
    ((0 : ℚ) < 1/3) := by
  decide

/-- Witness for C3: a player at the origin aiming at the projected mouse
point `(3, 1, 4)` gets the direction `(3/5, 0, 4/5)` with zero vertical
component and unit squared length; an enemy shooting a player at its own
base height gets the unit aim `(0, 0, 1)` whose vertical component is zero
precisely because the heights agree. -/
theorem C3_bullet_directions_witness :
    ((⟨3/5, 0, 4/5⟩ : Vec3).y = 0 ∧
      normSq (⟨3/5, 0, 4/5⟩ : Vec3) = 1) ∧
    (normSq (⟨0, 0, 1⟩ : Vec3) = 1 ∧
      ((⟨0, 0, 1⟩ : Vec3).y = 0 ↔
        (Player.mk ⟨0, 1/2, 0⟩ ⟨1/2, 1/2, 1/2⟩ (1/4) 0 ⟨0, 0, 0⟩ true (1/5) (1/100)
          100 false 0).position.y =
        (Enemy.mk ⟨0, 1/2, -3⟩ ⟨1/2, 1/2, 1/2⟩ (13/100) 1 2 true 30 false 0).position.y)) := by
  have h := C3_bullet_directions
    (Player.mk ⟨0, 1/2, 0⟩ ⟨1/2, 1/2, 1/2⟩ (1/4) 0 ⟨0, 0, 0⟩ true (1/5) (1/100) 100 false 0)
    ⟨3, 1, 4⟩ ⟨3/5, 0, 4/5⟩ ⟨3/5, 0, 4/5⟩
    (Enemy.mk ⟨0, 1/2, -3⟩ ⟨1/2, 1/2, 1/2⟩ (13/100) 1 2 true 30 false 0)
    ⟨0, 0, 1⟩ [] 0
  have hn1 : Normalizes
      (playerAimRaw
        (Player.mk ⟨0, 1/2, 0⟩ ⟨1/2, 1/2, 1/2⟩ (1/4) 0 ⟨0, 0, 0⟩ true (1/5) (1/100)
          100 false 0) ⟨3, 1, 4⟩) ⟨3/5, 0, 4/5⟩ :=
    Or.inr ⟨by decide, 1/5, by norm_num, by decide, by decide⟩
  have hn2 : Normalizes (setYZero ⟨3/5, 0, 4/5⟩) ⟨3/5, 0, 4/5⟩ :=
    Or.inr ⟨by decide, 1, by norm_num, by decide, by decide⟩
  have hu : Normalizes
      (enemyAimRaw (Enemy.mk ⟨0, 1/2, -3⟩ ⟨1/2, 1/2, 1/2⟩ (13/100) 1 2 true 30 false 0)
        (Player.mk ⟨0, 1/2, 0⟩ ⟨1/2, 1/2, 1/2⟩ (1/4) 0 ⟨0, 0, 0⟩ true (1/5) (1/100)
          100 false 0)) ⟨0, 0, 1⟩ :=
    Or.inr ⟨by decide, 1/3, by norm_num, by decide, by decide⟩
  obtain ⟨hy, hu1, _⟩ := h.1 hn1 hn2
  obtain ⟨hu2, hiff⟩ := h.2 hu
  exact ⟨⟨hy, hu1 (by decide)⟩, ⟨hu2 (by decide), hiff⟩⟩

/-- One scan step accumulates the collision flag and the ground-contact
flag by disjunction with the per-cell predicates. -/
theorem playerScanStep_or (pb : Box) (py : ℚ) (m : GameMap) (cX cZ : ℤ)
    (acc : Bool × Bool) (o : ℤ × ℤ) :
    playerScanStep pb py m cX cZ acc o =
      (acc.1 || collCellB pb py m cX cZ o, acc.2 || groundCellB pb py m cX cZ o) := by
  by_cases h1 : cellIsWall m (cX + o.2) (cZ + o.1) = true
  · by_cases h2 : CheckCollisionBoxes pb (cellBounds m (cX + o.2) (cZ + o.1)) = true
    · by_cases h3 : |py - (m.origin.y + 1)| < 1/10
      · simp [playerScanStep, collCellB, groundCellB, h1, h2, h3, -one_div]
      · simp [playerScanStep, collCellB, groundCellB, h1, h2, h3, -one_div]
    · simp [playerScanStep, collCellB, groundCellB, h1, h2, -one_div]
  · simp [playerScanStep, collCellB, groundCellB, h1, -one_div]

/-- The whole 3×3 scan computes the disjunctions of the per-cell collision
and ground-contact predicates. -/
theorem scan_foldl (pb : Box) (py : ℚ) (m : GameMap) (cX cZ : ℤ)
    (l : List (ℤ × ℤ)) (acc : Bool × Bool) :
    l.foldl (playerScanStep pb py m cX cZ) acc =
      (acc.1 || l.any (collCellB pb py m cX cZ),
       acc.2 || l.any (groundCellB pb py m cX cZ)) := by
  induction l generalizing acc with
  | nil => simp
  | cons o rest ih =>
    rw [List.foldl_cons, playerScanStep_or, ih]
    simp [Bool.or_assoc]

/-- C10 (amended): the player-vs-map query touches no player field other
than `isGrounded`; it never clears `isGrounded`; it returns `(true, p)`
with the player fully untouched when the player box misses the overall map
bounds (so an out-of-bounds player at base height at most 0.5 is *not*
grounded by the call); and when the player box does meet the map bounds,
the resulting `isGrounded` is the old flag or-ed with the 3×3
ground-contact scan and the base-height-at-most-0.5 test. -/
theorem C10_grounded_side_effect (p : Player) (m : GameMap) :
    ((CheckCollisionPlayerWithMap p m).2 =
      { p with isGrounded := (CheckCollisionPlayerWithMap p m).2.isGrounded }) ∧
    (p.isGrounded = true → (CheckCollisionPlayerWithMap p m).2.isGrounded = true) ∧
    (CheckCollisionBoxes (GetPlayerBoundingBox p) (mapBounds m) = false →
        CheckCollisionPlayerWithMap p m = (true, p)) ∧
    (CheckCollisionBoxes (GetPlayerBoundingBox p) (mapBounds m) = true →
        (CheckCollisionPlayerWithMap p m).2.isGrounded =
          (p.isGrounded ||
            (offsets.any (groundCellB (GetPlayerBoundingBox p) p.position.y m
                (cIntCast (p.position.x - m.origin.x)) (cIntCast (p.position.z - m.origin.z))) ||
              decide (p.position.y ≤ 1/2)))) := by
  by_cases hbox : CheckCollisionBoxes (GetPlayerBoundingBox p) (mapBounds m) = true
  · have hr : CheckCollisionPlayerWithMap p m =
        ((false || offsets.any (collCellB (GetPlayerBoundingBox p) p.position.y m
          (cIntCast (p.position.x - m.origin.x)) (cIntCast (p.position.z - m.origin.z)))),
         if ((false || offsets.any (groundCellB (GetPlayerBoundingBox p) p.position.y m
              (cIntCast (p.position.x - m.origin.x)) (cIntCast (p.position.z - m.origin.z)))) ||
             decide (p.position.y ≤ 1/2)) = true
         then { p with isGrounded := true } else p) := by
      simp only [CheckCollisionPlayerWithMap, hbox, Bool.true_eq_false, if_false]
      rw [scan_foldl]
    refine ⟨?_, ?_, ?_, ?_⟩
    · rw [hr]
      split
      · rfl
      · rfl
    · intro hg
      rw [hr]
      split
      · rfl
      · exact hg
    · intro hfalse
      rw [hbox] at hfalse
      exact absurd hfalse (by simp)
    · intro _
      rw [hr]
      cases hany : offsets.any (groundCellB (GetPlayerBoundingBox p) p.position.y m
          (cIntCast (p.position.x - m.origin.x)) (cIntCast (p.position.z - m.origin.z))) <;>
        cases hdec : decide (p.position.y ≤ 1/2) <;>
          simp_all
  · have hbox' : CheckCollisionBoxes (GetPlayerBoundingBox p) (mapBounds m) = false := by
      simpa using hbox
    have hr : CheckCollisionPlayerWithMap p m = (true, p) := by
      simp [CheckCollisionPlayerWithMap, hbox']
    refine ⟨?_, ?_, fun _ => hr, fun htrue => absurd htrue hbox⟩
    · rw [hr]
    · intro hg
      rw [hr]
      exact hg

/-- Counterexample for C10 as stated: a player far outside the map bounds
with base height exactly 0.5 and `isGrounded = false` is left ungrounded by
the query (the out-of-bounds early return skips the grounded update), even
though the claim requires `isGrounded` to be set whenever the base height
is at most 0.5. -/
theorem C10_counterexample :
    (CheckCollisionPlayerWithMap
        (Player.mk ⟨100, 1/2, 2⟩ ⟨1/2, 1/2, 1/2⟩ (1/4) 0 ⟨0, 0, 0⟩ false (1/5) (1/100)
          100 false 0)
        (GameMap.mk 4 4 (fun _ _ => (0, 0, 0)) ⟨⟨-10, 0, -10⟩, ⟨10, 1, 10⟩⟩
          ⟨0, 0, 0⟩)).2.isGrounded = false ∧
    (Player.mk ⟨100, 1/2, 2⟩ ⟨1/2, 1/2, 1/2⟩ (1/4) 0 ⟨0, 0, 0⟩ false (1/5) (1/100)
      100 false 0).position.y ≤ 1/2 := by
  decide

/-- Witness for C10: an in-bounds airborne-flagged player standing at base
height 0.5 on the empty map is grounded by the query via the base-height
rule. -/
theorem C10_grounded_side_effect_witness :
    CheckCollisionBoxes
      (GetPlayerBoundingBox
        (Player.mk ⟨1, 1/2, 1⟩ ⟨1/2, 1/2, 1/2⟩ (1/4) 0 ⟨0, 0, 0⟩ false (1/5) (1/100)
          100 false 0))
      (mapBounds (GameMap.mk 4 4 (fun _ _ => (0, 0, 0)) ⟨⟨-10, 0, -10⟩, ⟨10, 1, 10⟩⟩
        ⟨0, 0, 0⟩)) = true ∧
    (CheckCollisionPlayerWithMap
        (Player.mk ⟨1, 1/2, 1⟩ ⟨1/2, 1/2, 1/2⟩ (1/4) 0 ⟨0, 0, 0⟩ false (1/5) (1/100)
          100 false 0)
        (GameMap.mk 4 4 (fun _ _ => (0, 0, 0)) ⟨⟨-10, 0, -10⟩, ⟨10, 1, 10⟩⟩
          ⟨0, 0, 0⟩)).2.isGrounded = true := by
  refine ⟨by decide, ?_⟩
  rw [(C10_grounded_side_effect
    (Player.mk ⟨1, 1/2, 1⟩ ⟨1/2, 1/2, 1/2⟩ (1/4) 0 ⟨0, 0, 0⟩ false (1/5) (1/100)
      100 false 0)
    (GameMap.mk 4 4 (fun _ _ => (0, 0, 0)) ⟨⟨-10, 0, -10⟩, ⟨10, 1, 10⟩⟩
      ⟨0, 0, 0⟩)).2.2.2 (by decide)]
  decide
